import Mathlib

/-!
Verification model of the Orion chat agent repository: the OpenAPI tool
extractor/executor (mcp_server.py) and the tool-calling orchestration loop
(orion.py).  Python dicts are modelled as insertion-ordered association
lists, JSON values as an inductive type, raised exceptions as `Except`
errors, and the external collaborators (the HTTP transport, the language
model, the MCP session and the Python json library) as function parameters.
-/

namespace OrionChat

/-- A JSON value, as produced by Python's json/yaml loaders.  Objects keep
insertion order, matching Python dict semantics.  Numbers are modelled as
integers (no claim exercises floating point). -/
inductive JsonValue where
  | null
  | bool (b : Bool)
  | num (n : Int)
  | str (s : String)
  | arr (xs : List JsonValue)
  | obj (fields : List (String × JsonValue))
deriving BEq, Inhabited

/-- Insert into a Python-dict association list: an existing key is
overwritten in place, a new key is appended (Python dict semantics). -/
def pyDictInsert {α : Type} (d : List (String × α)) (k : String) (v : α) :
    List (String × α) :=
  if (d.lookup k).isSome then
    d.map (fun p => if p.1 == k then (k, v) else p)
  else
    d ++ [(k, v)]

/-- Python `dict.update`: keys already present keep their position and take
the new value; new keys are appended in the update's order. -/
def pyDictUpdate {α : Type} (base upd : List (String × α)) :
    List (String × α) :=
  (base.map (fun p => match upd.lookup p.1 with
    | some v => (p.1, v)
    | none => p))
    ++ upd.filter (fun p => (base.lookup p.1).isNone)

/-- Python truthiness of a JSON value (`if x:`). -/
def pyTruthy : JsonValue → Bool
  | .null => false
  | .bool b => b
  | .num n => n != 0
  | .str s => !s.isEmpty
  | .arr xs => !xs.isEmpty
  | .obj fs => !fs.isEmpty

mutual

/-- Structural size of a JSON value, used as recursion fuel. -/
def jsonSize : JsonValue → Nat
  | .null => 1
  | .bool _ => 1
  | .num _ => 1
  | .str _ => 1
  | .arr xs => 1 + jsonSizeList xs
  | .obj fs => 1 + jsonSizeFields fs

/-- Size of a list of JSON values. -/
def jsonSizeList : List JsonValue → Nat
  | [] => 0
  | v :: t => 1 + jsonSize v + jsonSizeList t

/-- Size of a JSON object's field list. -/
def jsonSizeFields : List (String × JsonValue) → Nat
  | [] => 0
  | p :: t => 1 + jsonSize p.2 + jsonSizeFields t

end

/-- Python repr of a JSON value, used by `str()` on lists and dicts.  The
fuel starts at `jsonSize`, which strictly exceeds the nesting depth, so the
fuel-exhaustion branch is never reached on actual values.  String escaping
inside repr is elided (no claim inspects it). -/
def pyRepr : Nat → JsonValue → String
  | _, .null => "None"
  | _, .bool b => if b then "True" else "False"
  | _, .num n => toString n
  | _, .str s => "\x27" ++ s ++ "\x27"
  | fuel + 1, .arr xs =>
      "[" ++ String.intercalate ", " (xs.map (pyRepr fuel)) ++ "]"
  | fuel + 1, .obj fs =>
      "\x7b" ++ String.intercalate ", "
        (fs.map (fun p => "\x27" ++ p.1 ++ "\x27: " ++ pyRepr fuel p.2)) ++ "\x7d"
  | 0, .arr _ => ""
  | 0, .obj _ => ""

/-- Python `str()` of a JSON value, as used by f-string interpolation and
by `str(param_value)` in the executor. -/
def pyStr : JsonValue → String
  | .null => "None"
  | .bool b => if b then "True" else "False"
  | .num n => toString n
  | .str s => s
  | .arr xs => pyRepr (jsonSize (.arr xs)) (.arr xs)
  | .obj fs => pyRepr (jsonSize (.obj fs)) (.obj fs)

/-- Substring test on character lists (`pat in s` in Python). -/
def subIn (pat : List Char) : List Char → Bool
  | [] => pat.isEmpty
  | c :: t => pat.isPrefixOf (c :: t) || subIn pat t

/-- Python `pat in s` on strings. -/
def strContains (s pat : String) : Bool := subIn pat.data s.data

/-- Replace every non-overlapping occurrence of `pat` left to right, as
Python `str.replace`.  The fuel equals the length of the scanned list, which
bounds the number of recursion steps, so exhaustion is unreachable. -/
def replaceSubFuel (pat repl : List Char) : Nat → List Char → List Char
  | _, [] => []
  | 0, s => s
  | fuel + 1, c :: t =>
      if pat.isEmpty then c :: t
      else if pat.isPrefixOf (c :: t) then
        repl ++ replaceSubFuel pat repl fuel ((c :: t).drop pat.length)
      else
        c :: replaceSubFuel pat repl fuel t

/-- Python `s.replace(pat, repl)` (the patterns used by the executor are
never empty: they are always brace-wrapped names). -/
def pyReplace (s pat repl : String) : String :=
  String.mk (replaceSubFuel pat.data repl.data s.data.length s.data)

/-- Python `s.rstrip(c)`: drop every trailing occurrence. -/
def pyRstrip (s : String) (c : Char) : String :=
  String.mk ((s.data.reverse.dropWhile (· == c)).reverse)

/-- Python `s.upper()` (ASCII, as every method name here is). -/
def pyUpper (s : String) : String := String.mk (s.data.map Char.toUpper)

/-- Python `s.lower()` (ASCII, as every derived tool name here is). -/
def pyLower (s : String) : String := String.mk (s.data.map Char.toLower)

/-- The opening brace character, `chr(123)`. -/
def lbrace : Char := Char.ofNat 123

/-- The closing brace character, `chr(125)`. -/
def rbrace : Char := Char.ofNat 125

/-- Python `s.find(c)`: index of the first occurrence, `none` for -1. -/
def strFindIdx (s : String) (c : Char) : Option Nat :=
  s.data.findIdx? (· == c)

/-- Python `s.rfind(c)`: index of the last occurrence, `none` for -1. -/
def strRfindIdx (s : String) (c : Char) : Option Nat :=
  match s.data.reverse.findIdx? (· == c) with
  | some i => some (s.data.length - 1 - i)
  | none => none

/-- Python slice `s[start:stop+1]` by code points. -/
def strSlice (s : String) (start stop : Nat) : String :=
  String.mk ((s.data.drop start).take (stop + 1 - start))

/-! ## mcp_server.py: OpenAPIToolExtractor -/

/-- One entry of an operation's `parameters` list.  `name` is `param['name']`
(a parameter without a name raises KeyError in Python, so no descriptor is
produced for its operation); `required` is `param.get('required', False)`;
`«in»` is `param.get('in', 'query')`; `schemaDict` is the fragment handed to
the schema converter, `param.get('schema', param)`. -/
structure OAParam where
  name : String
  required : Bool
  «in» : String
  schemaDict : JsonValue

/-- The JSON media-type schema of a request body: its `properties` object
and `required` list, each `none` when the key is absent. -/
structure OABodySchema where
  properties : Option (List (String × JsonValue))
  required : Option (List String)

/-- An operation's `requestBody`: `jsonSchema` is
`content['application/json'].get('schema', {})` when that content entry
exists (`none` when there is no `application/json` entry); `required` is
`request_body.get('required', False)`. -/
structure OARequestBody where
  jsonSchema : Option OABodySchema
  required : Bool

/-- An OpenAPI operation, restricted to the keys the extractor reads. -/
structure OAOperation where
  parameters : List OAParam
  requestBody : Option OARequestBody
  operationId : Option String
  summary : Option String
  description : Option String

/-- Pick one key of a fragment into the converted schema, in place. -/
def copyKey (fields : List (String × JsonValue)) (k : String) :
    List (String × JsonValue) :=
  match fields.lookup k with
  | some v => [(k, v)]
  | none => []

/-- The schema converter `_convert_openapi_type_to_json_schema`, fuelled: copies `type`,
`description`, `enum`, `default`, `format`, `minimum`, `maximum` when
present and recurses into `items`.  The fuel starts at `jsonSize`, which
strictly exceeds the depth of any `items` chain, so exhaustion is
unreachable.  Non-dict fragments yield an empty schema. -/
def convertAux : Nat → JsonValue → JsonValue
  | fuel + 1, .obj fields =>
      .obj (copyKey fields "type" ++ copyKey fields "description" ++
            copyKey fields "enum" ++ copyKey fields "default" ++
            copyKey fields "format" ++ copyKey fields "minimum" ++
            copyKey fields "maximum" ++
            (match fields.lookup "items" with
             | some v => [("items", convertAux fuel v)]
             | none => []))
  | _ + 1, _ => .obj []
  | 0, _ => .obj []

/-- The converter `OpenAPIToolExtractor._convert_openapi_type_to_json_schema`. -/
def convertOpenapiTypeToJsonSchema (param : JsonValue) : JsonValue :=
  convertAux (jsonSize param) param

/-- The parameter-handling loop of `_extract_parameters`: each declared
parameter contributes a property (converted schema) and, when marked
required, its name is appended to the required list. -/
def paramsAcc (ps : List OAParam) : List (String × JsonValue) × List String :=
  ps.foldl (fun acc p =>
    (pyDictInsert acc.1 p.name (convertOpenapiTypeToJsonSchema p.schemaDict),
     if p.required then acc.2 ++ [p.name] else acc.2))
    ([], [])

/-- The request-body merge of `_extract_parameters`: when the body has an
`application/json` schema with `properties`, those are merged in (dict
update) and, in that case only, its `required` list is appended. -/
def bodyAcc (acc : List (String × JsonValue) × List String) :
    Option OARequestBody → List (String × JsonValue) × List String
  | none => acc
  | some rb =>
    match rb.jsonSchema with
    | some bs =>
      match bs.properties with
      | some bprops =>
        (pyDictUpdate acc.1 bprops,
         match bs.required with
         | some br => acc.2 ++ br
         | none => acc.2)
      | none => acc
    | none => acc

/-- The final required list of `_extract_parameters`: the accumulated list,
except that a required request body with an otherwise empty required list
makes every property name required (`required = list(properties.keys())`). -/
def finalRequired (orb : Option OARequestBody)
    (acc : List (String × JsonValue) × List String) : List String :=
  match orb with
  | some rb => if rb.required && acc.2.isEmpty then acc.1.map Prod.fst else acc.2
  | none => acc.2

/-- The schema builder `OpenAPIToolExtractor._extract_parameters`: parameters, then body merge,
then the require-everything fallback; the result is always
`{type: "object", properties, required}`. -/
def extractParameters (op : OAOperation) : JsonValue :=
  let acc := bodyAcc (paramsAcc op.parameters) op.requestBody
  .obj [("type", .str "object"),
        ("properties", .obj acc.1),
        ("required", .arr ((finalRequired op.requestBody acc).map JsonValue.str))]

/-- Tool name derivation in `extract_tools`: `operationId` if present, else
method and path with slashes turned to underscores and braces stripped;
then hyphens to underscores and lower-cased. -/
def deriveToolName (method path : String) (op : OAOperation) : String :=
  let base := match op.operationId with
    | some oid => oid
    | none =>
        method ++ "_" ++
          pyReplace (pyReplace (pyReplace path "/" "_") "\x7b" "") "\x7d" ""
  pyLower (pyReplace base "-" "_")

/-- Description derivation in `extract_tools`: summary, else description,
else `"{METHOD} {path}"`. -/
def deriveDescription (method path : String) (op : OAOperation) : String :=
  match op.summary with
  | some s => s
  | none => match op.description with
    | some d => d
    | none => pyUpper method ++ " " ++ path

/-- The per-tool record stored in `self.tools`. -/
structure ToolInfo where
  path : String
  method : String
  operation : OAOperation
  input_schema : JsonValue

/-- The HTTP methods eligible for tool extraction. -/
def eligibleMethods : List String := ["GET", "POST", "PUT", "PATCH", "DELETE"]

/-- An OpenAPI document, restricted to the keys the extractor reads:
`paths` maps each path to its method/operation entries; `servers` lists the
`url` of each `servers` entry. -/
structure OADocument where
  paths : List (String × List (String × OAOperation))
  servers : List String

/-- The registry builder `OpenAPIToolExtractor.extract_tools`: walk paths and methods, skip
ineligible methods, and insert each derived tool into the registry mapping
(a dict, so a duplicate derived name is overwritten: last writer wins). -/
def extractTools (doc : OADocument) : List (String × ToolInfo) :=
  doc.paths.foldl (fun tools pathEntry =>
    pathEntry.2.foldl (fun tools methodEntry =>
      if eligibleMethods.contains (pyUpper methodEntry.1) then
        pyDictInsert tools (deriveToolName methodEntry.1 pathEntry.1 methodEntry.2)
          { path := pathEntry.1
            method := pyUpper methodEntry.1
            operation := methodEntry.2
            input_schema := extractParameters methodEntry.2 }
      else tools) tools) []

/-- Base-url resolution `OpenAPIToolExtractor._get_base_url`: explicit override, else the first
server url of the document, else the hard-coded local fallback. -/
def getBaseUrl (baseUrl : Option String) (doc : OADocument) : String :=
  match baseUrl with
  | some b => b
  | none =>
    match doc.servers with
    | s :: _ => s
    | [] => "http://localhost:8000"

/-- The HTTP request assembled by `execute_tool` and handed to the client:
method, resolved URL, query params, headers and optional JSON body. -/
structure HttpRequest where
  method : String
  url : String
  params : List (String × JsonValue)
  headers : List (String × String)
  jsonData : Option (List (String × JsonValue))

/-- The outcome of the transport call, including `raise_for_status`:
`ok` is a 2xx response whose body parsed as JSON (`jsonBody = some`) or did
not (`none`, with the raw text); `httpError` is a raised `httpx.HTTPError`
with the status code when the exception carries a response; `exn` is any
other raised exception. -/
inductive RequestOutcome where
  | ok (statusCode : Nat) (jsonBody : Option JsonValue) (text : String)
  | httpError (msg : String) (statusCode : Option Nat)
  | exn (msg : String)

/-- The request-assembly half of `execute_tool`: path substitution over the
arguments in order, then query/header placement by each declared
parameter's `in` location, then the JSON body from the arguments matching
no declared parameter name (only when the operation declares a request
body, and only when at least one such argument exists). -/
def buildRequest (info : ToolInfo) (token : Option String) (base : String)
    (arguments : List (String × JsonValue)) : HttpRequest :=
  let url0 := pyRstrip base '/' ++ info.path
  let url := arguments.foldl (fun u a =>
      let pat := "\x7b" ++ a.1 ++ "\x7d"
      if strContains u pat then pyReplace u pat (pyStr a.2) else u) url0
  let ph := info.operation.parameters.foldl (fun acc p =>
      match arguments.lookup p.name with
      | some v =>
          if p.«in» == "query" then (pyDictInsert acc.1 p.name v, acc.2)
          else if p.«in» == "header" then (acc.1, pyDictInsert acc.2 p.name (pyStr v))
          else acc
      | none => acc)
    (([] : List (String × JsonValue)),
     [("Authorization", "Bearer " ++ token.getD "None")])
  let jsonData := match info.operation.requestBody with
    | some _ =>
        let remaining := arguments.filter
          (fun a => !(info.operation.parameters.any (fun p => p.name == a.1)))
        if remaining.isEmpty then none else some remaining
    | none => none
  { method := info.method, url := url, params := ph.1, headers := ph.2,
    jsonData := jsonData }

/-- The response-handling half of `execute_tool`: a 2xx response yields
`{success: true, data, status_code}` (with the raw text and status code as
the payload when the body is not JSON); a raised `httpx.HTTPError` yields
`{success: false, error, status_code}`; any other exception yields
`{success: false, error}` with no status-code key. -/
def handleOutcome : RequestOutcome → JsonValue
  | .ok status jsonBody text =>
      let result := match jsonBody with
        | some j => j
        | none => .obj [("content", .str text), ("status_code", .num status)]
      .obj [("success", .bool true), ("data", result), ("status_code", .num status)]
  | .httpError msg status =>
      .obj [("success", .bool false), ("error", .str msg),
            ("status_code", match status with | some c => .num c | none => .null)]
  | .exn msg =>
      .obj [("success", .bool false), ("error", .str msg)]

/-- The executor `OpenAPIToolExtractor.execute_tool`: an unknown tool name raises
`ValueError("Unknown tool: ...")` (modelled as `.error`); otherwise the
request is assembled, performed through the transport `http`, and the
outcome normalised to a result dict. -/
def executeTool (tools : List (String × ToolInfo)) (token : Option String)
    (baseUrl : Option String) (doc : OADocument)
    (http : HttpRequest → RequestOutcome) (toolName : String)
    (arguments : List (String × JsonValue)) : Except String JsonValue :=
  match tools.lookup toolName with
  | none => .error ("Unknown tool: " ++ toolName)
  | some info =>
      .ok (handleOutcome (http (buildRequest info token (getBaseUrl baseUrl doc) arguments)))

/-! ## orion.py: client-side Tool and the Orion orchestration loop -/

/-- The fixed apology returned by the orchestration loop's turn-level
exception handler. -/
def apology : String := "Sorry, something went wrong."

/-- orion.py's client-side `Tool` class: a catalog entry learned from the
server's listing. -/
structure OTool where
  name : String
  description : String
  input_schema : JsonValue

/-- The rendering `Tool.format_for_llm`: one block per tool listing each property of
`input_schema.properties` with its description (default "No description"),
annotated `(required)` when the property name occurs in the schema's
`required` array. -/
def formatForLlm (t : OTool) : String :=
  let argsDesc : List String :=
    match t.input_schema with
    | .obj fs =>
      (match fs.lookup "properties" with
       | some (.obj props) =>
           props.map (fun p =>
             let descr := match p.2 with
               | .obj pf =>
                   match pf.lookup "description" with
                   | some d => pyStr d
                   | none => "No description"
               | _ => "No description"
             let base := "- " ++ p.1 ++ ": " ++ descr
             let isReq := match fs.lookup "required" with
               | some (.arr xs) => xs.contains (.str p.1)
               | _ => false
             if isReq then base ++ " (required)" else base)
       | _ => [])
    | _ => []
  "\nTool: " ++ t.name ++ "\nDescription: " ++ t.description ++
    "\nArguments:\n" ++ String.intercalate "\n" argsDesc ++ "\n"

/-- The rendering `Orion._format_tools_for_prompt`: the rendered catalog followed by the
fixed instructions showing the exact tool-call JSON envelope. -/
def formatToolsForPrompt (tools : List OTool) : String :=
  if tools.isEmpty then "No tools available."
  else
    (tools.foldl (fun acc t => acc ++ formatForLlm t) "Available tools:") ++
      "\nTo use a tool, respond with a JSON object in this format:\n\x7b\n    \"tool_call\": \x7b\n        \"name\": \"tool_name\",\n        \"arguments\": \x7b\n            \"param1\": \"value1\",\n            \"param2\": \"value2\"\n        \x7d\n    \x7d\n\x7d\n"

/-- The system prompt built at the top of `Orion.process_query`. -/
def systemPrompt (tools : List OTool) : String :=
  "You are an awesome AI assistant with access to tools.\n\n" ++
    formatToolsForPrompt tools ++
    "\n\nWhen you need to use a tool to answer a question, respond with the tool call JSON format shown above.\nIf you don't need tools, respond normally with a message.\n"

/-- The first prompt sent to the model in `Orion.process_query`. -/
def fullPrompt (tools : List OTool) (query : String) : String :=
  systemPrompt tools ++ "\n\nUser: " ++ query ++ "\n\nAssistant:"

/-- The follow-up prompt built after a tool call, embedding the tool name,
the JSON-encoded arguments and the tool's textual result. -/
def followUpPrompt (sys query : String) (toolName : JsonValue)
    (argsDump toolResult : String) : String :=
  sys ++ "\n\nUser: " ++ query ++ "\n\nTool call: " ++ pyStr toolName ++
    "(" ++ argsDump ++ ")\nTool result: " ++ toolResult ++
    "\n\nNow provide a natural language response to the user based on the tool result:\n"

/-- A content part of an MCP call-tool result: one with a `.text`
attribute, or anything else rendered through `str()`. -/
inductive ContentPart where
  | text (t : String)
  | other (s : String)

/-- The result object returned by `session.call_tool`: its `content`
attribute when it has one, and its `str()` rendering. -/
structure CallToolResult where
  content : Option (List ContentPart)
  asStr : String

/-- The result formatting inside `Orion.call_tool`: join the texts of a
non-empty `content` list, else `str(result)`. -/
def formatCallResult (r : CallToolResult) : String :=
  match r.content with
  | some parts =>
      if parts.isEmpty then r.asStr
      else String.intercalate "\n"
        (parts.map fun p => match p with | .text t => t | .other s => s)
  | none => r.asStr

/-- The dispatcher `Orion.call_tool`: raises RuntimeError (modelled as `.error`) when no
session is connected; otherwise performs the remote invocation and, if the
remote call raises, catches the exception and returns the string
`"Error calling tool <name>: <message>"` as a normal result. -/
def callTool
    (session : Option (JsonValue → JsonValue → Except String CallToolResult))
    (toolName arguments : JsonValue) : Except String String :=
  match session with
  | none => .error "Session not initialized"
  | some call =>
    match call toolName arguments with
    | .ok result => .ok (formatCallResult result)
    | .error e => .ok ("Error calling tool " ++ pyStr toolName ++ ": " ++ e)

/-- Python `key in container` membership for the parsed JSON value:
key membership for dicts, element membership for lists, substring test for
strings; `none` models the TypeError raised on non-containers. -/
def pyInDict (key : String) : JsonValue → Option Bool
  | .obj fs => some (fs.lookup key).isSome
  | .arr xs => some (xs.contains (.str key))
  | .str s => some (strContains s key)
  | _ => none

/-- The detector `Orion._extract_tool_call`: take the substring from the first brace to
the last brace; if either is missing return `none`; parse the substring
with `loads` (Python `json.loads`, an external library function), treating
a parse failure as `none` (the caught JSONDecodeError); return the value
under `tool_call` when that key is present, else `none`.  `.error` models a
TypeError from membership or subscripting on a non-dict parse result,
which the function does not catch. -/
def extractToolCall (loads : String → Option JsonValue) (response : String) :
    Except String (Option JsonValue) :=
  match strFindIdx response lbrace, strRfindIdx response rbrace with
  | some start, some stop =>
      let jsonStr := strSlice response start stop
      match loads jsonStr with
      | none => .ok none
      | some parsed =>
          match pyInDict "tool_call" parsed with
          | some true =>
              match parsed with
              | .obj fs => .ok (some ((fs.lookup "tool_call").getD .null))
              | _ => .error "TypeError"
          | some false => .ok none
          | none => .error "TypeError"
  | _, _ => .ok none

/-- The orchestration loop `Orion.process_query`: build the prompt, generate, scan for a tool
call, optionally dispatch it and generate once more; every exception
raised inside the turn's try block (generation, extraction, tool dispatch)
is caught and converted to the fixed apology.  The language model `llm`
(`none` when not initialised), the MCP session and the json codec
(`loads`/`dumps`) are external collaborators passed as functions. -/
def processQuery (loads : String → Option JsonValue) (dumps : JsonValue → String)
    (llm : Option (String → Except String String))
    (session : Option (JsonValue → JsonValue → Except String CallToolResult))
    (tools : List OTool) (query : String) : String :=
  match llm with
  | none => "LLM not initialized. Connect to server first."
  | some invoke =>
    match invoke (fullPrompt tools query) with
    | .error _ => apology
    | .ok response =>
      match extractToolCall loads response with
      | .error _ => apology
      | .ok none => response
      | .ok (some tc) =>
        if pyTruthy tc then
          match tc with
          | .obj fs =>
            let toolName := (fs.lookup "name").getD .null
            let arguments := (fs.lookup "arguments").getD (.obj [])
            match callTool session toolName arguments with
            | .error _ => apology
            | .ok toolResult =>
              match invoke (followUpPrompt (systemPrompt tools) query toolName
                  (dumps arguments) toolResult) with
              | .error _ => apology
              | .ok answer => answer
          | _ => apology
        else response

/-! ## Observation helpers for stating properties -/

/-- The keys of a JSON object, in order. -/
def objKeys : JsonValue → List String
  | .obj fs => fs.map Prod.fst
  | _ => []

/-- Key lookup in a JSON object. -/
def objLookup (v : JsonValue) (k : String) : Option JsonValue :=
  match v with
  | .obj fs => fs.lookup k
  | _ => none

/-- The property names of an input schema, in order. -/
def schemaPropNames (s : JsonValue) : List String :=
  match objLookup s "properties" with
  | some (.obj props) => props.map Prod.fst
  | _ => []

/-- The required names of an input schema, in order. -/
def schemaRequired (s : JsonValue) : List String :=
  match objLookup s "required" with
  | some (.arr xs) => xs.filterMap (fun v => match v with
      | .str s => some s
      | _ => none)
  | _ => []

/-- Whether a schema's required list is contained in its property names. -/
def requiredSubsetProps (s : JsonValue) : Bool :=
  (schemaRequired s).all (fun n => (schemaPropNames s).contains n)

/-- A string occurs inside another, witnessed by a decomposition of the
underlying character lists. -/
def ContainsStr (s sub : String) : Prop :=
  ∃ a b : List Char, s.data = a ++ sub.data ++ b

/-- Well-formedness of an operation's body schema: whenever it declares
both `properties` and `required`, every required name is one of its
property names (as every well-formed OpenAPI body schema does). -/
def BodyWellFormed (op : OAOperation) : Prop :=
  ∀ rb bs bprops breq, op.requestBody = some rb → rb.jsonSchema = some bs →
    bs.properties = some bprops → bs.required = some breq →
    ∀ n ∈ breq, n ∈ bprops.map Prod.fst

/-! ## Concrete inputs used by counterexamples and witnesses -/

/-- A document whose single operation declares a body schema with
`properties` `{a}` but `required` `["b"]`. -/
def c3doc : OADocument :=
  { paths := [("/x", [("post",
      { parameters := []
        requestBody := some
          { jsonSchema := some
              { properties := some [("a", .obj [])]
                required := some ["b"] }
            required := false }
        operationId := some "t"
        summary := none
        description := none })])]
    servers := [] }

/-- An operation with a well-formed body schema: `properties` `{a, b}` and
`required` `["a"]`. -/
def c3wfop : OAOperation :=
  { parameters := []
    requestBody := some
      { jsonSchema := some
          { properties := some [("a", .obj []), ("b", .obj [])]
            required := some ["a"] }
        required := false }
    operationId := some "t2"
    summary := none
    description := none }

/-- A document containing only `c3wfop`. -/
def c3wfdoc : OADocument :=
  { paths := [("/y", [("post", c3wfop)])], servers := [] }

/-- The registry entry `extractTools` produces for `c3wfdoc`. -/
def c3wfinfo : ToolInfo :=
  { path := "/y", method := "POST", operation := c3wfop,
    input_schema := extractParameters c3wfop }

/-- An operation with a required request body whose schema declares
properties `a` and `b` and no explicit required list. -/
def c5op : OAOperation :=
  { parameters := []
    requestBody := some
      { jsonSchema := some
          { properties := some [("a", .obj []), ("b", .obj [])]
            required := none }
        required := true }
    operationId := none
    summary := none
    description := none }

/-- A tool whose operation declares a request body and no parameters, on a
path with an `id` placeholder. -/
def c2infoA : ToolInfo :=
  { path := "/users/\x7bid\x7d", method := "GET"
    operation :=
      { parameters := []
        requestBody := some { jsonSchema := none, required := false }
        operationId := none, summary := none, description := none }
    input_schema := .obj [] }

/-- A tool whose operation declares neither parameters nor a request
body. -/
def c2infoB : ToolInfo :=
  { path := "/x", method := "GET"
    operation :=
      { parameters := []
        requestBody := none
        operationId := none, summary := none, description := none }
    input_schema := .obj [] }

/-- The spec's worked example: path `/users/{id}` with `id` declared as a
path parameter and `verbose` as a query parameter. -/
def c2exInfo : ToolInfo :=
  { path := "/users/\x7bid\x7d", method := "GET"
    operation :=
      { parameters :=
          [ { name := "id", required := true, «in» := "path", schemaDict := .obj [] },
            { name := "verbose", required := false, «in» := "query", schemaDict := .obj [] } ]
        requestBody := some { jsonSchema := none, required := false }
        operationId := none, summary := none, description := none }
    input_schema := .obj [] }

/-- A one-tool registry used to exercise the executor's outcome
handling. -/
def c7tools : List (String × ToolInfo) :=
  [("t", { path := "/p", method := "GET"
           operation :=
             { parameters := []
               requestBody := none
               operationId := none, summary := none, description := none }
           input_schema := .obj [] })]

/-- An empty OpenAPI document. -/
def emptyDoc : OADocument := { paths := [], servers := [] }

/-! ## Association-list lemmas -/

/-- A successful lookup exhibits a member pair. -/
theorem lookup_mem {α : Type} {d : List (String × α)} {k : String} {v : α}
    (h : d.lookup k = some v) : (k, v) ∈ d := by
  induction d with
  | nil => simp [List.lookup] at h
  | cons p t ih =>
    obtain ⟨a, b⟩ := p
    rw [List.lookup] at h
    by_cases hk : k = a
    · subst hk; simp at h; subst h; exact List.mem_cons_self _ _
    · have hne : (k == a) = false := by simp [hk]
      rw [hne] at h
      exact List.mem_cons_of_mem _ (ih h)

/-- A key with a successful lookup is among the keys. -/
theorem mem_keys_of_lookup_isSome {α : Type} {d : List (String × α)} {k : String}
    (h : (d.lookup k).isSome) : k ∈ d.map Prod.fst := by
  obtain ⟨v, hv⟩ := Option.isSome_iff_exists.mp h
  exact List.mem_map.mpr ⟨(k, v), lookup_mem hv, rfl⟩

/-- The keys after a Python-dict insert: unchanged when the key was
present, the key appended otherwise. -/
theorem keys_pyDictInsert {α : Type} (d : List (String × α)) (k : String) (v : α) :
    (pyDictInsert d k v).map Prod.fst =
      if (d.lookup k).isSome then d.map Prod.fst else d.map Prod.fst ++ [k] := by
  unfold pyDictInsert
  split
  · rw [List.map_map]
    apply List.map_congr_left
    intro p _
    by_cases hp : (p.1 == k) = true
    · simp only [Function.comp_apply, hp, if_pos]
      exact (eq_of_beq hp).symm
    · simp only [Function.comp_apply, hp, if_neg]
      simp
  · simp

/-- Existing keys survive a Python-dict insert. -/
theorem mem_keys_pyDictInsert_of_mem {α : Type} {d : List (String × α)}
    {k x : String} {v : α} (h : x ∈ d.map Prod.fst) :
    x ∈ (pyDictInsert d k v).map Prod.fst := by
  rw [keys_pyDictInsert]
  split
  · exact h
  · exact List.mem_append_left _ h

/-- The inserted key is among the keys after a Python-dict insert. -/
theorem self_mem_keys_pyDictInsert {α : Type} (d : List (String × α))
    (k : String) (v : α) : k ∈ (pyDictInsert d k v).map Prod.fst := by
  rw [keys_pyDictInsert]
  split
  · exact mem_keys_of_lookup_isSome (by assumption)
  · exact List.mem_append_right _ (List.mem_singleton.mpr rfl)

/-- The keys after a Python-dict update: the base keys followed by the
fresh update keys. -/
theorem keys_pyDictUpdate {α : Type} (base upd : List (String × α)) :
    (pyDictUpdate base upd).map Prod.fst =
      base.map Prod.fst ++
        (upd.filter (fun p => (base.lookup p.1).isNone)).map Prod.fst := by
  unfold pyDictUpdate
  rw [List.map_append, List.map_map]
  congr 1
  apply List.map_congr_left
  intro p _
  cases h : upd.lookup p.1 <;> simp [h]

/-- Base keys survive a Python-dict update. -/
theorem mem_keys_pyDictUpdate_of_mem_base {α : Type} {base upd : List (String × α)}
    {x : String} (h : x ∈ base.map Prod.fst) :
    x ∈ (pyDictUpdate base upd).map Prod.fst := by
  rw [keys_pyDictUpdate]
  exact List.mem_append_left _ h

/-- Update keys appear among the keys after a Python-dict update. -/
theorem mem_keys_pyDictUpdate_of_mem_upd {α : Type} {base upd : List (String × α)}
    {x : String} (h : x ∈ upd.map Prod.fst) :
    x ∈ (pyDictUpdate base upd).map Prod.fst := by
  rw [keys_pyDictUpdate, List.mem_append]
  by_cases hb : (base.lookup x).isSome
  · exact Or.inl (mem_keys_of_lookup_isSome hb)
  · right
    obtain ⟨p, hp, hpx⟩ := List.mem_map.mp h
    refine List.mem_map.mpr ⟨p, List.mem_filter.mpr ⟨hp, ?_⟩, hpx⟩
    rw [hpx]
    simpa [Option.isNone_iff_eq_none, ← Option.not_isSome_iff_eq_none] using hb

/-- A member of a Python-dict insert is the inserted value or an original
pair. -/
theorem mem_pyDictInsert {α : Type} {d : List (String × α)} {k : String}
    {v : α} {p : String × α} (h : p ∈ pyDictInsert d k v) :
    p.2 = v ∨ p ∈ d := by
  unfold pyDictInsert at h
  split at h
  · obtain ⟨q, hq, hfq⟩ := List.mem_map.mp h
    by_cases hk : (q.1 == k) = true
    · rw [if_pos hk] at hfq
      left
      rw [← hfq]
    · rw [if_neg hk] at hfq
      right
      rw [← hfq]
      exact hq
  · rcases List.mem_append.mp h with h | h
    · exact Or.inr h
    · left
      rw [List.mem_singleton.mp h]

/-- Folding a list while only inserting values that satisfy `P` preserves
`P` over every stored value. -/
theorem foldl_entries_pres {α β : Type} {P : (String × α) → Prop}
    {step : List (String × α) → β → List (String × α)}
    (hstep : ∀ acc b p, (∀ q ∈ acc, P q) → p ∈ step acc b → P p) :
    ∀ (l : List β) (init : List (String × α)), (∀ q ∈ init, P q) →
      ∀ p ∈ l.foldl step init, P p := by
  intro l
  induction l with
  | nil => intro init h; simpa using h
  | cons b t ih =>
    intro init h
    simp only [List.foldl_cons]
    exact ih _ (fun q hq => hstep init b q h hq)

/-! ## Schema extraction lemmas -/

/-- Unwrapping lemma: `filterMap` undoes the `JsonValue.str` wrapping of the required list. -/
theorem filterMap_str_map (l : List String) :
    (l.map JsonValue.str).filterMap (fun v => match v with
      | .str s => some s
      | _ => none) = l := by
  induction l with
  | nil => rfl
  | cons h t ih => simp [ih]

/-- Reading back the required list of a built schema. -/
theorem schemaRequired_extractParameters (op : OAOperation) :
    schemaRequired (extractParameters op) =
      finalRequired op.requestBody (bodyAcc (paramsAcc op.parameters) op.requestBody) := by
  show ((finalRequired op.requestBody
      (bodyAcc (paramsAcc op.parameters) op.requestBody)).map JsonValue.str).filterMap _ = _
  exact filterMap_str_map _

/-- Reading back the property names of a built schema. -/
theorem schemaPropNames_extractParameters (op : OAOperation) :
    schemaPropNames (extractParameters op) =
      (bodyAcc (paramsAcc op.parameters) op.requestBody).1.map Prod.fst := rfl

/-- The parameter loop keeps the accumulated required names among the
accumulated property keys. -/
theorem paramsAcc_sub (ps : List OAParam) :
    ∀ m ∈ (paramsAcc ps).2, m ∈ (paramsAcc ps).1.map Prod.fst := by
  suffices h : ∀ (acc : List (String × JsonValue) × List String),
      (∀ m ∈ acc.2, m ∈ acc.1.map Prod.fst) →
      ∀ m ∈ (ps.foldl (fun acc p =>
          (pyDictInsert acc.1 p.name (convertOpenapiTypeToJsonSchema p.schemaDict),
           if p.required then acc.2 ++ [p.name] else acc.2)) acc).2,
        m ∈ (ps.foldl (fun acc p =>
          (pyDictInsert acc.1 p.name (convertOpenapiTypeToJsonSchema p.schemaDict),
           if p.required then acc.2 ++ [p.name] else acc.2)) acc).1.map Prod.fst by
    exact h ([], []) (by simp)
  induction ps with
  | nil => intro acc hacc; simpa using hacc
  | cons p t ih =>
    intro acc hacc
    simp only [List.foldl_cons]
    apply ih
    intro m hm
    by_cases hr : p.required
    · rw [if_pos hr] at hm
      rcases List.mem_append.mp hm with h | h
      · exact mem_keys_pyDictInsert_of_mem (hacc m h)
      · rw [List.mem_singleton.mp h]
        exact self_mem_keys_pyDictInsert _ _ _
    · rw [if_neg hr] at hm
      exact mem_keys_pyDictInsert_of_mem (hacc m hm)

/-- The body merge keeps the accumulated required names among the property
keys, given a well-formed body schema. -/
theorem bodyAcc_sub (acc : List (String × JsonValue) × List String)
    (orb : Option OARequestBody)
    (hacc : ∀ m ∈ acc.2, m ∈ acc.1.map Prod.fst)
    (hwf : ∀ rb bs bprops breq, orb = some rb → rb.jsonSchema = some bs →
      bs.properties = some bprops → bs.required = some breq →
      ∀ n ∈ breq, n ∈ bprops.map Prod.fst) :
    ∀ m ∈ (bodyAcc acc orb).2, m ∈ (bodyAcc acc orb).1.map Prod.fst := by
  cases orb with
  | none => simpa [bodyAcc] using hacc
  | some rb =>
    cases hbs : rb.jsonSchema with
    | none => simp only [bodyAcc, hbs]; exact hacc
    | some bs =>
      cases hbp : bs.properties with
      | none => simp only [bodyAcc, hbs, hbp]; exact hacc
      | some bprops =>
        cases hbr : bs.required with
        | none =>
          simp only [bodyAcc, hbs, hbp, hbr]
          exact fun m hm => mem_keys_pyDictUpdate_of_mem_base (hacc m hm)
        | some br =>
          simp only [bodyAcc, hbs, hbp, hbr]
          intro m hm
          rcases List.mem_append.mp hm with h | h
          · exact mem_keys_pyDictUpdate_of_mem_base (hacc m h)
          · exact mem_keys_pyDictUpdate_of_mem_upd
              (hwf rb bs bprops br rfl hbs hbp hbr m h)

/-- For a well-formed operation, the built schema's required names are
among its property names. -/
theorem extractParameters_required_sub (op : OAOperation)
    (hwf : BodyWellFormed op) :
    ∀ n ∈ schemaRequired (extractParameters op),
      n ∈ schemaPropNames (extractParameters op) := by
  rw [schemaRequired_extractParameters, schemaPropNames_extractParameters]
  have hacc : ∀ m ∈ (bodyAcc (paramsAcc op.parameters) op.requestBody).2,
      m ∈ (bodyAcc (paramsAcc op.parameters) op.requestBody).1.map Prod.fst :=
    bodyAcc_sub _ _ (paramsAcc_sub op.parameters) hwf
  generalize hA : bodyAcc (paramsAcc op.parameters) op.requestBody = A at hacc ⊢
  cases op.requestBody with
  | none => exact hacc
  | some rb =>
    simp only [finalRequired]
    split
    · exact fun n hn => hn
    · exact hacc

/-- Every registry entry stores the schema extracted from its own
operation. -/
theorem extractTools_entries (doc : OADocument) :
    ∀ p ∈ extractTools doc, p.2.input_schema = extractParameters p.2.operation := by
  have houter : ∀ (acc : List (String × ToolInfo))
      (pathEntry : String × List (String × OAOperation)) (p : String × ToolInfo),
      (∀ q ∈ acc, q.2.input_schema = extractParameters q.2.operation) →
      p ∈ pathEntry.2.foldl (fun tools methodEntry =>
          if eligibleMethods.contains (pyUpper methodEntry.1) then
            pyDictInsert tools (deriveToolName methodEntry.1 pathEntry.1 methodEntry.2)
              { path := pathEntry.1
                method := pyUpper methodEntry.1
                operation := methodEntry.2
                input_schema := extractParameters methodEntry.2 }
          else tools) acc →
      p.2.input_schema = extractParameters p.2.operation := by
    intro acc pathEntry p hacc hp
    have hinner : ∀ (acc2 : List (String × ToolInfo)) (me : String × OAOperation)
        (q : String × ToolInfo),
        (∀ r ∈ acc2, r.2.input_schema = extractParameters r.2.operation) →
        q ∈ (if eligibleMethods.contains (pyUpper me.1) then
            pyDictInsert acc2 (deriveToolName me.1 pathEntry.1 me.2)
              { path := pathEntry.1
                method := pyUpper me.1
                operation := me.2
                input_schema := extractParameters me.2 }
          else acc2) →
        q.2.input_schema = extractParameters q.2.operation := by
      intro acc2 me q hacc2 hq
      by_cases hel : eligibleMethods.contains (pyUpper me.1)
      · rw [if_pos hel] at hq
        rcases mem_pyDictInsert hq with h | h
        · rw [h]
        · exact hacc2 q h
      · rw [if_neg hel] at hq
        exact hacc2 q hq
    exact foldl_entries_pres hinner pathEntry.2 acc hacc p hp
  exact foldl_entries_pres houter doc.paths [] (by simp)

/-! ## Theorems for the claims -/

/-- C9: for every operation, the built input schema is an object with
exactly the keys `type`, `properties` and `required`, in that order; its
`type` is the string "object", and `properties` and `required` are present
(as an object and an array) even when empty. -/
theorem c9_schema_shape (op : OAOperation) :
    objKeys (extractParameters op) = ["type", "properties", "required"] ∧
    objLookup (extractParameters op) "type" = some (.str "object") ∧
    (∃ props, objLookup (extractParameters op) "properties" = some (.obj props)) ∧
    (∃ req, objLookup (extractParameters op) "required" = some (.arr req)) :=
  ⟨rfl, rfl, ⟨_, rfl⟩, ⟨_, rfl⟩⟩

/-- C3, counterexample: the registry built from `c3doc` contains exactly
one descriptor, and its `input_schema.required` (namely `["b"]`) is not a
subset of its `input_schema.properties` keys (namely `["a"]`): the body
schema's `required` list is copied without checking it against
`properties`. -/
theorem c3_counterexample :
    ((extractTools c3doc).map (fun e => requiredSubsetProps e.2.input_schema))
      = [false] := by
  rfl

/-- C3, amended: for every tool descriptor the registry builder generates
from a document whose operation has a well-formed body schema (its
`required` list only names its own `properties`), every name in
`input_schema.required` is a key of `input_schema.properties`. -/
theorem c3_amended (doc : OADocument) (name : String) (info : ToolInfo)
    (h : (extractTools doc).lookup name = some info)
    (hwf : BodyWellFormed info.operation) :
    ∀ n ∈ schemaRequired info.input_schema,
      n ∈ schemaPropNames info.input_schema := by
  rw [extractTools_entries doc (name, info) (lookup_mem h)]
  exact extractParameters_required_sub info.operation hwf

/-- C3, witness: the amended theorem applied to the concrete well-formed
document `c3wfdoc`: the required name "a" is indeed a property key. -/
theorem c3_amended_witness :
    "a" ∈ schemaPropNames c3wfinfo.input_schema := by
  apply c3_amended c3wfdoc "t2" c3wfinfo (by rfl)
  · intro rb bs bprops breq h1 h2 h3 h4 n hn
    injection h1 with e1
    subst e1
    injection h2 with e2
    subst e2
    injection h3 with e3
    subst e3
    injection h4 with e4
    subst e4
    simp at hn
    subst hn
    decide
  · decide

/-- C1, counterexample: calling the executor with a name absent from the
registry does not return a normal failure result: it raises
`ValueError("Unknown tool: nope")`, modelled as an `Except.error` crossing
the executor boundary. -/
theorem c1_counterexample :
    executeTool [] none none emptyDoc (fun _ => .exn "unreachable") "nope" []
      = .error "Unknown tool: nope" := by
  rfl

/-- C1, amended: for every call with a name absent from the registry, the
executor raises `ValueError` with message `"Unknown tool: <name>"` — an
exception propagates across the Tool Executor boundary instead of a
`{success: false, ...}` result being returned. -/
theorem c1_amended (tools : List (String × ToolInfo)) (token : Option String)
    (baseUrl : Option String) (doc : OADocument)
    (http : HttpRequest → RequestOutcome) (name : String)
    (args : List (String × JsonValue)) (h : tools.lookup name = none) :
    executeTool tools token baseUrl doc http name args =
      .error ("Unknown tool: " ++ name) := by
  unfold executeTool
  rw [h]

/-- C1, witness: the amended theorem at the empty registry. -/
theorem c1_amended_witness :
    executeTool [] none none emptyDoc (fun _ => .exn "unreachable") "nope" []
      = .error ("Unknown tool: " ++ "nope") :=
  c1_amended [] none none emptyDoc (fun _ => .exn "unreachable") "nope" [] rfl

/-- C5: when the request body is marked required and the required list
accumulated from parameters and body schema is empty, the built schema's
required list is exactly the list of every property name. -/
theorem c5_require_everything (op : OAOperation) (rb : OARequestBody)
    (hrb : op.requestBody = some rb) (hreq : rb.required = true)
    (hempty : (bodyAcc (paramsAcc op.parameters) op.requestBody).2 = []) :
    schemaRequired (extractParameters op) =
      schemaPropNames (extractParameters op) := by
  rw [schemaRequired_extractParameters, schemaPropNames_extractParameters]
  rw [hrb] at hempty ⊢
  simp [finalRequired, hreq, hempty]

/-- C5, witness: for a required body with properties `a` and `b` and no
explicit required list, the built schema's required list is `["a", "b"]`. -/
theorem c5_witness :
    schemaRequired (extractParameters c5op) = ["a", "b"] := by
  rw [c5_require_everything c5op _ rfl rfl (by rfl)]
  rfl

/-- C7: for an executed tool, a raised `httpx.HTTPError` yields
`{success: false, error, status_code}` (the status code when obtainable,
else null); any other exception yields `{success: false, error}` with no
status-code entry; a 2xx response whose body fails JSON parsing yields a
success payload holding the raw text and status code — in each case the
executor returns a result value, never an exception. -/
theorem c7_executor_error_normalization
    (tools : List (String × ToolInfo)) (token : Option String)
    (baseUrl : Option String) (doc : OADocument)
    (http : HttpRequest → RequestOutcome) (name : String)
    (args : List (String × JsonValue)) (info : ToolInfo)
    (h : tools.lookup name = some info) :
    (∀ msg st,
      http (buildRequest info token (getBaseUrl baseUrl doc) args) = .httpError msg st →
      executeTool tools token baseUrl doc http name args =
        .ok (.obj [("success", .bool false), ("error", .str msg),
          ("status_code", match st with | some c => .num c | none => .null)])) ∧
    (∀ msg,
      http (buildRequest info token (getBaseUrl baseUrl doc) args) = .exn msg →
      executeTool tools token baseUrl doc http name args =
        .ok (.obj [("success", .bool false), ("error", .str msg)])) ∧
    (∀ status text,
      http (buildRequest info token (getBaseUrl baseUrl doc) args) = .ok status none text →
      executeTool tools token baseUrl doc http name args =
        .ok (.obj [("success", .bool true),
          ("data", .obj [("content", .str text), ("status_code", .num status)]),
          ("status_code", .num status)])) := by
  refine ⟨?_, ?_, ?_⟩
  · intro msg st hh
    simp only [executeTool, h, hh, handleOutcome]
  · intro msg hh
    simp only [executeTool, h, hh, handleOutcome]
  · intro status text hh
    simp only [executeTool, h, hh, handleOutcome]

/-- C7, witness: a transport error with status 500 produces the
corresponding failure dict. -/
theorem c7_witness :
    executeTool c7tools none none emptyDoc (fun _ => .httpError "boom" (some 500)) "t" []
      = .ok (.obj [("success", .bool false), ("error", .str "boom"),
          ("status_code", .num 500)]) :=
  (c7_executor_error_normalization c7tools none none emptyDoc
    (fun _ => .httpError "boom" (some 500)) "t" [] _ rfl).1 "boom" (some 500) rfl

/-- Membership in the executor's remaining-arguments filter: exactly the
arguments whose name matches no declared parameter. -/
theorem mem_remaining_iff (params : List OAParam)
    (args : List (String × JsonValue)) (k : String) (v : JsonValue) :
    (k, v) ∈ args.filter (fun a => !(params.any (fun p => p.name == a.1))) ↔
      ((k, v) ∈ args ∧ ∀ p ∈ params, p.name ≠ k) := by
  rw [List.mem_filter]
  simp [List.any_eq_true]

/-- C2, counterexample: for path template `/users/{id}` on an operation
with a request body and no declared parameters, the argument `id` is
substituted into the URL yet still sent as the JSON body (the claim says a
path-substituted argument is removed from consideration and that no body is
sent); and for an operation without a request body, an argument matching no
declared parameter is not placed in any body at all (the claim says it
is). -/
theorem c2_counterexample :
    ((buildRequest c2infoA none "http://localhost:8000" [("id", .num 42)]).url
        = "http://localhost:8000/users/42" ∧
     (buildRequest c2infoA none "http://localhost:8000" [("id", .num 42)]).jsonData
        = some [("id", .num 42)]) ∧
    (buildRequest c2infoB none "http://localhost:8000" [("extra", .num 1)]).jsonData
        = none := by
  refine ⟨⟨?_, ?_⟩, ?_⟩ <;> rfl

/-- C2, amended: path substitution does not remove an argument from
query/header/body consideration — placement is decided independently of the
path template; an argument is placed in the JSON body exactly when its name
matches no declared parameter, and the body is sent only when the operation
declares a request body and at least one such argument exists; the worked
example `/users/{id}` with `id` a declared path parameter and `verbose` a
declared query parameter still resolves to `.../users/42?verbose=true` with
no body. -/
theorem c2_amended (info : ToolInfo) (tok : Option String) (base path2 : String)
    (args : List (String × JsonValue)) :
    ((buildRequest { info with path := path2 } tok base args).params =
        (buildRequest info tok base args).params ∧
     (buildRequest { info with path := path2 } tok base args).headers =
        (buildRequest info tok base args).headers ∧
     (buildRequest { info with path := path2 } tok base args).jsonData =
        (buildRequest info tok base args).jsonData) ∧
    (info.operation.requestBody = none →
      (buildRequest info tok base args).jsonData = none) ∧
    (info.operation.requestBody.isSome →
      ∀ k v, ((k, v) ∈ args ∧ ∀ p ∈ info.operation.parameters, p.name ≠ k) ↔
        (k, v) ∈ ((buildRequest info tok base args).jsonData.getD [])) ∧
    buildRequest c2exInfo (some "tok") "http://localhost:8000"
        [("id", .num 42), ("verbose", .bool true)] =
      { method := "GET", url := "http://localhost:8000/users/42",
        params := [("verbose", .bool true)],
        headers := [("Authorization", "Bearer tok")],
        jsonData := none } := by
  refine ⟨⟨rfl, rfl, rfl⟩, ?_, ?_, by rfl⟩
  · intro h
    simp only [buildRequest, h]
  · intro hrb k v
    obtain ⟨rb, hs⟩ := Option.isSome_iff_exists.mp hrb
    have hjd : (buildRequest info tok base args).jsonData =
        (if (args.filter
              (fun a => !(info.operation.parameters.any (fun p => p.name == a.1)))).isEmpty
         then none
         else some (args.filter
              (fun a => !(info.operation.parameters.any (fun p => p.name == a.1))))) := by
      simp only [buildRequest, hs]
    rw [hjd]
    by_cases he : (args.filter
        (fun a => !(info.operation.parameters.any (fun p => p.name == a.1)))).isEmpty
    · rw [if_pos he]
      simp only [Option.getD_none, List.not_mem_nil, iff_false]
      intro hcontra
      have hmem := (mem_remaining_iff info.operation.parameters args k v).mpr hcontra
      rw [List.isEmpty_iff.mp he] at hmem
      exact List.not_mem_nil _ hmem
    · rw [if_neg he]
      exact (mem_remaining_iff info.operation.parameters args k v).symm

/-- C2, witness: the amended theorem's body characterization at the
concrete input of the counterexample: `id` matches no declared parameter,
so it is in the JSON body even though it was substituted into the path. -/
theorem c2_amended_witness :
    ("id", JsonValue.num 42) ∈
      ((buildRequest c2infoA none "http://localhost:8000"
          [("id", JsonValue.num 42)]).jsonData.getD []) := by
  refine ((c2_amended c2infoA none "http://localhost:8000" "/q"
      [("id", JsonValue.num 42)]).2.2.1 (by rfl) "id" (JsonValue.num 42)).mp ?_
  constructor
  · simp
  · intro p hp
    simp [c2infoA] at hp

/-- C6: tool-call detection takes the substring from the first brace to
the last brace and parses it; when either brace is missing, when parsing
fails, or when the parsed object lacks a `tool_call` key, the model reply
is returned verbatim as the direct answer, for any session — no tool
invocation is attempted. -/
theorem c6_direct_answer (loads : String → Option JsonValue)
    (dumps : JsonValue → String) (invoke : String → Except String String)
    (session : Option (JsonValue → JsonValue → Except String CallToolResult))
    (tools : List OTool) (query response : String)
    (hresp : invoke (fullPrompt tools query) = .ok response) :
    ((strFindIdx response lbrace = none ∨ strRfindIdx response rbrace = none) →
      processQuery loads dumps (some invoke) session tools query = response) ∧
    (∀ s e, strFindIdx response lbrace = some s →
      strRfindIdx response rbrace = some e →
      loads (strSlice response s e) = none →
      processQuery loads dumps (some invoke) session tools query = response) ∧
    (∀ s e fs, strFindIdx response lbrace = some s →
      strRfindIdx response rbrace = some e →
      loads (strSlice response s e) = some (.obj fs) →
      fs.lookup "tool_call" = none →
      processQuery loads dumps (some invoke) session tools query = response) := by
  have hpq : extractToolCall loads response = .ok none →
      processQuery loads dumps (some invoke) session tools query = response := by
    intro hext
    simp only [processQuery, hresp, hext]
  refine ⟨?_, ?_, ?_⟩
  · intro h
    apply hpq
    cases hx : strFindIdx response lbrace with
    | none => simp [extractToolCall, hx]
    | some s =>
      rcases h with h | h
      · rw [h] at hx
        cases hx
      · simp [extractToolCall, hx, h]
  · intro s e hs he hl
    exact hpq (by simp [extractToolCall, hs, he, hl])
  · intro s e fs hs he hl hlk
    exact hpq (by simp [extractToolCall, hs, he, hl, pyInDict, hlk])

/-- C6, witness: the braceless reply "The answer is 5" is returned
verbatim. -/
theorem c6_witness :
    processQuery (fun _ => none) (fun _ => "")
      (some (fun _ => .ok "The answer is 5")) none [] "hi"
      = "The answer is 5" :=
  (c6_direct_answer (fun _ => none) (fun _ => "")
    (fun _ => .ok "The answer is 5") none [] "hi" "The answer is 5" rfl).1
    (Or.inl (by rfl))

/-- C4: every exception the turn-level handler sees — a failure of the
first generation call, an uncaught error inside tool-call extraction, the
RuntimeError raised by tool dispatch without a session, or a failure of the
follow-up generation call — is converted into the fixed apology string;
`processQuery` always returns a plain string to its caller. -/
theorem c4_turn_level_catch (loads : String → Option JsonValue)
    (dumps : JsonValue → String) (invoke : String → Except String String)
    (session : Option (JsonValue → JsonValue → Except String CallToolResult))
    (tools : List OTool) (query : String) :
    (∀ e, invoke (fullPrompt tools query) = .error e →
      processQuery loads dumps (some invoke) session tools query = apology) ∧
    (∀ response e, invoke (fullPrompt tools query) = .ok response →
      extractToolCall loads response = .error e →
      processQuery loads dumps (some invoke) session tools query = apology) ∧
    (∀ response fs, invoke (fullPrompt tools query) = .ok response →
      extractToolCall loads response = .ok (some (.obj fs)) →
      pyTruthy (.obj fs) = true → session = none →
      processQuery loads dumps (some invoke) session tools query = apology) ∧
    (∀ response fs toolResult e2,
      invoke (fullPrompt tools query) = .ok response →
      extractToolCall loads response = .ok (some (.obj fs)) →
      pyTruthy (.obj fs) = true →
      callTool session ((fs.lookup "name").getD .null)
        ((fs.lookup "arguments").getD (.obj [])) = .ok toolResult →
      invoke (followUpPrompt (systemPrompt tools) query
          ((fs.lookup "name").getD .null)
          (dumps ((fs.lookup "arguments").getD (.obj []))) toolResult) = .error e2 →
      processQuery loads dumps (some invoke) session tools query = apology) := by
  refine ⟨?_, ?_, ?_, ?_⟩
  · intro e h
    simp only [processQuery, h]
  · intro response e h1 h2
    simp only [processQuery, h1, h2]
  · intro response fs h1 h2 h3 h4
    subst h4
    simp only [processQuery, h1, h2, h3, callTool, if_true]
  · intro response fs toolResult e2 h1 h2 h3 h4 h5
    simp only [processQuery, h1, h2, h3, h4, h5, if_true]

/-- C4, witness: a failing first generation call yields the apology. -/
theorem c4_witness :
    processQuery (fun _ => none) (fun _ => "")
      (some (fun _ => .error "boom")) none [] "q" = apology :=
  (c4_turn_level_catch (fun _ => none) (fun _ => "")
    (fun _ => .error "boom") none [] "q").1 "boom" rfl

/-- C10: when the remote tool invocation raises, `call_tool` returns the
string `"Error calling tool <name>: <message>"` instead of raising, and
`process_query` proceeds to the follow-up generation on a prompt that
embeds that error text as the tool result — returning the follow-up answer
(the apology only if the follow-up generation itself fails). -/
theorem c10_tool_error_flows_to_follow_up (loads : String → Option JsonValue)
    (dumps : JsonValue → String) (invoke : String → Except String String)
    (call : JsonValue → JsonValue → Except String CallToolResult)
    (tools : List OTool) (query response : String)
    (fs : List (String × JsonValue)) (e : String)
    (hresp : invoke (fullPrompt tools query) = .ok response)
    (hext : extractToolCall loads response = .ok (some (.obj fs)))
    (htr : pyTruthy (.obj fs) = true)
    (hcall : call ((fs.lookup "name").getD .null)
      ((fs.lookup "arguments").getD (.obj [])) = .error e) :
    callTool (some call) ((fs.lookup "name").getD .null)
        ((fs.lookup "arguments").getD (.obj []))
      = .ok ("Error calling tool " ++ pyStr ((fs.lookup "name").getD .null)
          ++ ": " ++ e) ∧
    processQuery loads dumps (some invoke) (some call) tools query =
      (match invoke (followUpPrompt (systemPrompt tools) query
          ((fs.lookup "name").getD .null)
          (dumps ((fs.lookup "arguments").getD (.obj [])))
          ("Error calling tool " ++ pyStr ((fs.lookup "name").getD .null)
            ++ ": " ++ e)) with
       | .ok answer => answer
       | .error _ => apology) ∧
    ContainsStr (followUpPrompt (systemPrompt tools) query
        ((fs.lookup "name").getD .null)
        (dumps ((fs.lookup "arguments").getD (.obj [])))
        ("Error calling tool " ++ pyStr ((fs.lookup "name").getD .null)
          ++ ": " ++ e))
      ("Error calling tool " ++ pyStr ((fs.lookup "name").getD .null)
        ++ ": " ++ e) := by
  have hct : callTool (some call) ((fs.lookup "name").getD .null)
      ((fs.lookup "arguments").getD (.obj []))
      = .ok ("Error calling tool " ++ pyStr ((fs.lookup "name").getD .null)
          ++ ": " ++ e) := by
    simp only [callTool, hcall]
  refine ⟨hct, ?_, ?_⟩
  · simp only [processQuery, hresp, hext, htr, hct, if_true]
    cases invoke (followUpPrompt (systemPrompt tools) query
      ((fs.lookup "name").getD .null)
      (dumps ((fs.lookup "arguments").getD (.obj [])))
      ("Error calling tool " ++ pyStr ((fs.lookup "name").getD .null)
        ++ ": " ++ e)) <;> rfl
  · refine ⟨(systemPrompt tools ++ "\n\nUser: " ++ query ++ "\n\nTool call: "
        ++ pyStr ((fs.lookup "name").getD .null) ++ "("
        ++ dumps ((fs.lookup "arguments").getD (.obj [])) ++ ")\nTool result: ").data,
      "\n\nNow provide a natural language response to the user based on the tool result:\n".data,
      ?_⟩
    simp [followUpPrompt, List.append_assoc]

/-- C10, witness: with a remote call that raises "boom" and a model whose
follow-up reply repeats its first reply, the loop returns the follow-up
answer, not the apology. -/
theorem c10_witness :
    processQuery (fun _ => some (.obj [("tool_call", .obj [("name", .str "t")])]))
      (fun _ => "") (some (fun _ => .ok "\x7bx\x7d"))
      (some (fun _ _ => .error "boom")) [] "q" = "\x7bx\x7d" := by
  rw [(c10_tool_error_flows_to_follow_up
    (fun _ => some (.obj [("tool_call", .obj [("name", .str "t")])]))
    (fun _ => "") (fun _ => .ok "\x7bx\x7d") (fun _ _ => .error "boom")
    [] "q" "\x7bx\x7d" [("name", .str "t")] "boom"
    rfl (by rfl) rfl rfl).2.1]

end OrionChat
